import Mathlib

/-!
Shallow embedding of the tunnelman process supervisor
(internal/core/tunnel.go, internal/core/process.go, internal/core/manager.go,
internal/store/store.go) together with proofs of the specification claims.

Go maps are embedded as association lists with map semantics: lookup finds
the binding of a key, insertion replaces any existing binding, and statements
about "map equality" are made through lookup extensionality, matching the
fact that Go map iteration order is unspecified.
-/

namespace Tunnelman

/-- Association-list lookup, embedding a Go map read `m[k]`. -/
def lookupA {α : Type} (k : String) : List (String × α) → Option α
  | [] => none
  | p :: t => if p.1 = k then some p.2 else lookupA k t

/-- Association-list key removal, embedding Go `delete(m, k)`. -/
def eraseA {α : Type} (k : String) : List (String × α) → List (String × α)
  | [] => []
  | p :: t => if p.1 = k then eraseA k t else p :: eraseA k t

/-- Association-list insertion, embedding Go `m[k] = v` (replace semantics). -/
def insertA {α : Type} (k : String) (v : α) (l : List (String × α)) :
    List (String × α) :=
  eraseA k l ++ [(k, v)]

/-- Number of bindings a key has in the table. -/
def countKey {α : Type} (k : String) : List (String × α) → Nat
  | [] => 0
  | p :: t => (if p.1 = k then 1 else 0) + countKey k t

/-! ## Data model (internal/core/tunnel.go) -/

/-- Forwarding type of a tunnel (`TunnelType` constants in tunnel.go). -/
inductive TunnelType
  | LocalForward
  | RemoteForward
  | DynamicForward
deriving DecidableEq

/-- Runtime status of a tunnel (`TunnelStatus` constants in tunnel.go). -/
inductive TunnelStatus
  | stopped
  | running
  | errorStatus
  | connecting
deriving DecidableEq

/-- The `Tunnel` struct of tunnel.go.  The internal mutex and the raw
process pointer are not part of the embedding; timestamps are abstract
natural numbers. -/
structure Tunnel where
  ID : String
  Name : String
  Typ : TunnelType
  LocalHost : String
  LocalPort : Int
  RemoteHost : String
  RemotePort : Int
  SSHHost : String
  ExtraArgs : List String
  AutoConnect : Bool
  Profile : String
  Status : TunnelStatus
  PID : Int
  StartedAt : Option Nat
  LastError : Option String
deriving DecidableEq

/-- `Tunnel.Validate` of tunnel.go.  The receiver is mutable in Go
(the method defaults an empty RemoteHost for LocalForward tunnels), so the
embedding returns the possibly updated tunnel together with the error. -/
def validate (t : Tunnel) : Tunnel × Option String :=
  if t.Name = "" then (t, some "tunnel name is required")
  else if t.SSHHost = "" then (t, some "SSH host is required")
  else
    match t.Typ with
    | .LocalForward =>
      if t.LocalPort ≤ 0 ∨ 65535 < t.LocalPort then (t, some "invalid local port")
      else if t.RemotePort ≤ 0 ∨ 65535 < t.RemotePort then (t, some "invalid remote port")
      else if t.RemoteHost = "" then ({ t with RemoteHost := "127.0.0.1" }, none)
      else (t, none)
    | .RemoteForward =>
      if t.LocalPort ≤ 0 ∨ 65535 < t.LocalPort then (t, some "invalid local port")
      else if t.RemotePort ≤ 0 ∨ 65535 < t.RemotePort then (t, some "invalid remote port")
      else (t, none)
    | .DynamicForward =>
      if t.LocalPort ≤ 0 ∨ 65535 < t.LocalPort then (t, some "invalid local port")
      else (t, none)

/-- `Tunnel.Clone` of tunnel.go, field by field.  The source copies every
configuration and runtime field except `Profile` (and the internal mutex
and process pointer), so the clone carries the Go zero value for Profile. -/
def cloneTunnel (t : Tunnel) : Tunnel :=
  { ID := t.ID
    Name := t.Name
    Typ := t.Typ
    LocalHost := t.LocalHost
    LocalPort := t.LocalPort
    RemoteHost := t.RemoteHost
    RemotePort := t.RemotePort
    SSHHost := t.SSHHost
    AutoConnect := t.AutoConnect
    Status := t.Status
    PID := t.PID
    LastError := t.LastError
    ExtraArgs := t.ExtraArgs
    StartedAt := t.StartedAt
    Profile := "" }

/-- Rendering of a Go `int` by `fmt.Sprintf("%d", n)`. -/
def goIntRepr (n : Int) : String :=
  if n < 0 then "-" ++ Nat.repr n.natAbs else Nat.repr n.natAbs

/-! ## ProcessManager (internal/core/process.go) -/

/-- The fixed stability options appended by `buildSSHArgs` in process.go. -/
def sshStabilityOptions : List String :=
  ["-N", "-T",
   "-o", "ServerAliveInterval=60",
   "-o", "ServerAliveCountMax=3",
   "-o", "ExitOnForwardFailure=yes",
   "-o", "StrictHostKeyChecking=accept-new",
   "-o", "ControlMaster=no",
   "-o", "ControlPath=none"]

/-- `ProcessManager.buildSSHArgs` of process.go, following the successive
appends of the source. -/
def buildSSHArgs (debug : Bool) (t : Tunnel) : List String :=
  let args : List String := []
  let args := args ++
    (match t.Typ with
     | .LocalForward =>
       ["-L", t.LocalHost ++ ":" ++ goIntRepr t.LocalPort ++ ":" ++
              t.RemoteHost ++ ":" ++ goIntRepr t.RemotePort]
     | .RemoteForward =>
       let localHost :=
         if t.LocalHost = "" ∨ t.LocalHost = "0.0.0.0" then "127.0.0.1"
         else t.LocalHost
       ["-R", goIntRepr t.RemotePort ++ ":" ++ localHost ++ ":" ++
              goIntRepr t.LocalPort]
     | .DynamicForward =>
       ["-D", t.LocalHost ++ ":" ++ goIntRepr t.LocalPort])
  let args := args ++ sshStabilityOptions
  let args := if t.ExtraArgs.length > 0 then args ++ t.ExtraArgs else args
  let args := if debug then args ++ ["-v"] else args
  args ++ [t.SSHHost]

/-- One observable signalling step of the supervisor.  `termGroup` and
`killGroup` are `syscall.Kill(-pid, SIGTERM/SIGKILL)` on the process group,
`killProc` is `Process.Kill()` on the single process, `termPid` and
`killPid` are `Process.Signal(SIGTERM/SIGKILL)` on a bare pid, and
`waitGrace` is the bounded wait on process exit. -/
inductive Sig
  | termGroup (pid : Int)
  | killGroup (pid : Int)
  | killProc (pid : Int)
  | termPid (pid : Int)
  | killPid (pid : Int)
  | waitGrace (seconds : Nat)
deriving DecidableEq

/-- The fixed grace window of `Disconnect` in process.go
(`time.After(5 * time.Second)`). -/
def graceWindowSeconds : Nat := 5

/-- Environment describing how the operating system reacts to the signals
sent during one `Disconnect` call. -/
structure SignalEnv where
  /-- SIGTERM to the process group is delivered without error. -/
  termGroupOk : Bool
  /-- SIGKILL to the process group is delivered without error. -/
  killGroupOk : Bool
  /-- the process exits within the grace window after the first signal. -/
  exitsInGrace : Bool
  /-- SIGTERM to a bare pid is delivered without error. -/
  termPidOk : Bool
  /-- SIGKILL to a bare pid is delivered without error. -/
  killPidOk : Bool
deriving DecidableEq

/-- `ProcessManager.killProcessByPID` of process.go: the fallback used by
`Disconnect` when no in-memory handle exists for the tunnel. -/
def killProcessByPID (env : SignalEnv) (pid : Int) :
    List Sig × Except String Unit :=
  if pid ≤ 0 then ([], .error "invalid PID")
  else if env.termPidOk then ([.termPid pid], .ok ())
  else if env.killPidOk then ([.termPid pid, .killPid pid], .ok ())
  else ([.termPid pid, .killPid pid], .error "failed to kill process")

/-- `ProcessManager.Disconnect` of process.go.  Returns the emitted signal
trace, the process table after the call, and the result.  The table maps
tunnel id to the pid of the tracked handle. -/
def disconnect (env : SignalEnv) (processes : List (String × Int))
    (id : String) (pid : Int) :
    List Sig × List (String × Int) × Except String Unit :=
  match lookupA id processes with
  | none =>
    let r := killProcessByPID env pid
    (r.1, processes, r.2)
  | some hpid =>
    if env.termGroupOk then
      if env.exitsInGrace then
        ([.termGroup hpid, .waitGrace graceWindowSeconds],
         eraseA id processes, .ok ())
      else
        ([.termGroup hpid, .waitGrace graceWindowSeconds, .killProc hpid],
         eraseA id processes, .ok ())
    else if env.killGroupOk then
      if env.exitsInGrace then
        ([.termGroup hpid, .killGroup hpid, .waitGrace graceWindowSeconds],
         eraseA id processes, .ok ())
      else
        ([.termGroup hpid, .killGroup hpid, .waitGrace graceWindowSeconds,
          .killProc hpid],
         eraseA id processes, .ok ())
    else
      ([.termGroup hpid, .killGroup hpid], processes,
       .error "failed to kill process")

/-! ## PID store (internal/store/store.go) -/

/-- The `PidInfo` struct of store.go. -/
structure PidInfo where
  PID : Int
  Started : String
  TunnelID : String
deriving DecidableEq

/-- Content of the pids.json file: `none` models an absent file. -/
def PidFile : Type := Option (List (String × PidInfo))

/-- `FilePidStore.LoadPids` of store.go: an absent file yields an empty
map, and entries whose process is not alive are pruned from the returned
map. -/
def loadPids (alive : Int → Bool) (file : PidFile) :
    List (String × PidInfo) :=
  match file with
  | none => []
  | some l => l.filter (fun e => alive e.2.PID)

/-- `FilePidStore.SavePids` of store.go: an empty map deletes the backing
file, otherwise the whole map is rewritten (write-then-rename). -/
def savePids (l : List (String × PidInfo)) : PidFile :=
  if l = [] then none else some l

/-- `FilePidStore.RemovePid` of store.go: load (with pruning), delete the
entry, save. -/
def removePid (alive : Int → Bool) (file : PidFile) (id : String) : PidFile :=
  savePids (eraseA id (loadPids alive file))

/-- `FilePidStore.AddPid` of store.go: load (with pruning), insert a fresh
entry carrying the current timestamp, save. -/
def addPid (alive : Int → Bool) (file : PidFile) (id : String) (pid : Int)
    (nowStr : String) : PidFile :=
  savePids (insertA id ⟨pid, nowStr, id⟩ (loadPids alive file))

/-- Lookup of a tunnel in the persisted pid file. -/
def lookupFile (k : String) (file : PidFile) : Option PidInfo :=
  match file with
  | none => none
  | some l => lookupA k l

/-! ## TunnelManager (internal/core/manager.go) -/

/-- The `TunnelStatusChange` event struct of manager.go. -/
structure TunnelStatusChange where
  TunnelID : String
  OldStatus : TunnelStatus
  NewStatus : TunnelStatus
  Err : Option String
deriving DecidableEq

/-- The capacity of the status-change channel created by
`NewTunnelManager` (`make(chan TunnelStatusChange, 100)`). -/
def statusChangeCapacity : Nat := 100

/-- `TunnelManager.notifyStatusChange` of manager.go: a buffered-channel
send inside `select` with a `default` branch, so the event is appended when
the buffer has room and dropped otherwise. -/
def notifyStatusChange (q : List TunnelStatusChange)
    (ev : TunnelStatusChange) : List TunnelStatusChange :=
  if q.length < statusChangeCapacity then q ++ [ev] else q

/-- The mutable state of a `TunnelManager` together with the state of its
`ProcessManager` and the persisted pid file. -/
structure ManagerState where
  tunnels : List (String × Tunnel)
  processes : List (String × Int)
  ledger : PidFile
  events : List TunnelStatusChange

/-- `TunnelManager.StartTunnel` of manager.go composed with
`ProcessManager.Connect` of process.go.  `spawn` is the outcome of
`cmd.Start()` (the pid on success), `alive` is the liveness probe used by
the pid store when `AddPid` reloads the file, `now` is the clock reading
for `StartedAt` and `nowStr` its formatted value stored in the ledger. -/
def startTunnel (alive : Int → Bool) (s : ManagerState) (id : String)
    (spawn : Except String Int) (now : Nat) (nowStr : String) :
    ManagerState × Except String Unit :=
  match lookupA id s.tunnels with
  | none => (s, .error ("tunnel not found: " ++ id))
  | some t =>
    if t.Status = .running then (s, .error "tunnel is already running")
    else
      let oldStatus := t.Status
      let t1 := { t with Status := .connecting }
      let s1 := { s with
        tunnels := insertA id t1 s.tunnels
        events := notifyStatusChange s.events
          ⟨id, oldStatus, .connecting, none⟩ }
      -- Connect first validates the tunnel; Validate may mutate the shared
      -- Tunnel value (RemoteHost defaulting), which is visible through the
      -- manager map because the map stores a pointer.
      let vres := validate t1
      let t2 := vres.1
      let s2 := { s1 with tunnels := insertA id t2 s1.tunnels }
      let connectResult : Except String Int :=
        match vres.2 with
        | some e => .error ("invalid tunnel configuration: " ++ e)
        | none => spawn
      match connectResult with
      | .error e =>
        let t3 := { t2 with Status := .errorStatus, LastError := some e }
        ({ s2 with
            tunnels := insertA id t3 s2.tunnels
            events := notifyStatusChange s2.events
              ⟨id, .connecting, .errorStatus, some e⟩ },
         .error ("failed to start tunnel: " ++ e))
      | .ok pid =>
        -- Connect registers the handle in the process table.
        let s3 := { s2 with processes := insertA id pid s2.processes }
        let t3 := { t2 with
          PID := pid
          StartedAt := some now
          Status := .running
          LastError := none }
        let s4 := { s3 with tunnels := insertA id t3 s3.tunnels }
        let s5 := { s4 with ledger := addPid alive s4.ledger id pid nowStr }
        ({ s5 with
            events := notifyStatusChange s5.events
              ⟨id, .connecting, .running, none⟩ },
         .ok ())

/-- The `TunnelConfig` struct of store.go, as written by `saveTunnels`. -/
structure TunnelConfig where
  ID : String
  Name : String
  Host : String
  LocalPort : Int
  RemotePort : Int
  Mode : String
  Options : List String
  Profile : String
  AutoConnect : Bool
deriving DecidableEq

/-- The mode string of a tunnel type (`string(t.Type)` in manager.go). -/
def tunnelTypeStr : TunnelType → String
  | .LocalForward => "local"
  | .RemoteForward => "remote"
  | .DynamicForward => "dynamic"

/-- One entry of the configuration written by `TunnelManager.saveTunnels`. -/
def tunnelToConfig (t : Tunnel) : TunnelConfig :=
  { ID := t.ID
    Name := t.Name
    Host := t.SSHHost
    LocalPort := t.LocalPort
    RemotePort := t.RemotePort
    Mode := tunnelTypeStr t.Typ
    Options := t.ExtraArgs
    Profile := t.Profile
    AutoConnect := t.AutoConnect }

/-- The tunnel list of the configuration rewritten wholesale by
`TunnelManager.saveTunnels` (the profiles section is derived data and is
not part of the claims). -/
def saveTunnelsPayload (tunnels : List (String × Tunnel)) :
    List TunnelConfig :=
  tunnels.map (fun p => tunnelToConfig p.2)

/-- `TunnelManager.AddTunnel` of manager.go.  `saveOk` is the outcome of
the configuration rewrite; the middle component records the payload of the
attempted rewrite, `none` when no rewrite was attempted. -/
def addTunnel (saveOk : Bool) (s : ManagerState) (t : Tunnel) :
    ManagerState × Option (List TunnelConfig) × Except String Unit :=
  let vres := validate t
  match vres.2 with
  | some e => (s, none, .error ("invalid tunnel configuration: " ++ e))
  | none =>
    let tv := vres.1
    match lookupA tv.ID s.tunnels with
    | some _ =>
      (s, none, .error ("tunnel with ID " ++ tv.ID ++ " already exists"))
    | none =>
      let s1 := { s with tunnels := insertA tv.ID tv s.tunnels }
      let payload := saveTunnelsPayload s1.tunnels
      if saveOk then (s1, some payload, .ok ())
      else ({ s1 with tunnels := eraseA tv.ID s1.tunnels },
            some payload, .error "failed to save tunnel")

/-- `TunnelManager.UpdateTunnel` of manager.go. -/
def updateTunnel (saveOk : Bool) (s : ManagerState) (t : Tunnel) :
    ManagerState × Option (List TunnelConfig) × Except String Unit :=
  let vres := validate t
  match vres.2 with
  | some e => (s, none, .error ("invalid tunnel configuration: " ++ e))
  | none =>
    let tv := vres.1
    match lookupA tv.ID s.tunnels with
    | none => (s, none, .error ("tunnel not found: " ++ tv.ID))
    | some existing =>
      if existing.Status = .running then
        (s, none, .error "cannot update running tunnel")
      else
        let s1 := { s with tunnels := insertA tv.ID tv s.tunnels }
        let payload := saveTunnelsPayload s1.tunnels
        if saveOk then (s1, some payload, .ok ())
        else ({ s1 with tunnels := insertA tv.ID existing s1.tunnels },
              some payload, .error "failed to save tunnel")

/-- `TunnelManager.DeleteTunnel` of manager.go. -/
def deleteTunnel (saveOk : Bool) (s : ManagerState) (id : String) :
    ManagerState × Option (List TunnelConfig) × Except String Unit :=
  match lookupA id s.tunnels with
  | none => (s, none, .error ("tunnel not found: " ++ id))
  | some t =>
    if t.Status = .running then
      (s, none, .error "cannot delete running tunnel")
    else
      let s1 := { s with tunnels := eraseA id s.tunnels }
      let payload := saveTunnelsPayload s1.tunnels
      if saveOk then (s1, some payload, .ok ())
      else ({ s1 with tunnels := insertA id t s1.tunnels },
            some payload, .error "failed to save config")

/-- Insertion into a name-sorted list, the sortedness target of
`sort.Slice` with comparator `Name < Name`. -/
def insertByName (t : Tunnel) : List Tunnel → List Tunnel
  | [] => [t]
  | u :: rest =>
    if t.Name ≤ u.Name then t :: u :: rest else u :: insertByName t rest

/-- Name sorting used by `GetTunnels` and `GetTunnelsByProfile`. -/
def sortByName (l : List Tunnel) : List Tunnel :=
  l.foldr insertByName []

/-- `TunnelManager.GetTunnelsByProfile` of manager.go: filters by profile
tag (an empty tag counts as the "default" profile), clones every selected
tunnel and sorts the result by name. -/
def getTunnelsByProfile (tunnels : List (String × Tunnel))
    (profileName : String) : List Tunnel :=
  sortByName
    ((tunnels.filter (fun p =>
        p.2.Profile == profileName ||
        (profileName == "default" && p.2.Profile == ""))).map
      (fun p => cloneTunnel p.2))

/-- Environment of `restoreTunnelStates`: the liveness probe (signal 0),
the RFC3339 parse of a stored timestamp, and the current time used when
parsing fails. -/
structure RestoreEnv where
  alive : Int → Bool
  parseTime : String → Option Nat
  now : Nat

/-- One iteration of the reconciliation loop in
`TunnelManager.restoreTunnelStates`. -/
def restoreStep (env : RestoreEnv)
    (acc : List (String × Tunnel) × PidFile) (e : String × PidInfo) :
    List (String × Tunnel) × PidFile :=
  match lookupA e.1 acc.1 with
  | none => (acc.1, removePid env.alive acc.2 e.1)
  | some t =>
    if env.alive e.2.PID then
      let startedAt :=
        match env.parseTime e.2.Started with
        | some ts => ts
        | none => env.now
      (insertA e.1
        { t with Status := .running, PID := e.2.PID,
                 StartedAt := some startedAt } acc.1,
       acc.2)
    else (acc.1, removePid env.alive acc.2 e.1)

/-- `TunnelManager.restoreTunnelStates` of manager.go: iterate the map
returned by `LoadPids` (which already pruned dead entries), deleting
orphaned or dead records from the store and marking the surviving tunnels
as running. -/
def restoreTunnelStates (env : RestoreEnv)
    (tunnels : List (String × Tunnel)) (file : PidFile) :
    List (String × Tunnel) × PidFile :=
  (loadPids env.alive file).foldl (restoreStep env) (tunnels, file)

/-! ## Concrete fixtures used by witnesses and counterexamples -/

/-- The scenario spec of the specification: id "web", LocalForward,
bind port 8080, destination localhost:80, SSH host example.com.  The bind
host is the 0.0.0.0 default assigned by the configuration loader. -/
def webSpec : Tunnel :=
  { ID := "web", Name := "web", Typ := .LocalForward, LocalHost := "0.0.0.0",
    LocalPort := 8080, RemoteHost := "localhost", RemotePort := 80,
    SSHHost := "example.com", ExtraArgs := [], AutoConnect := false,
    Profile := "default", Status := .stopped, PID := 0, StartedAt := none,
    LastError := none }

/-- A manager holding the web tunnel in the transient Connecting state. -/
def connectingState : ManagerState :=
  { tunnels := [("web", { webSpec with Status := .connecting })],
    processes := [], ledger := none, events := [] }

/-- A manager holding the web tunnel in the Stopped state. -/
def stoppedState : ManagerState :=
  { tunnels := [("web", webSpec)],
    processes := [], ledger := none, events := [] }

/-- A sample status-change event. -/
def sampleEvent : TunnelStatusChange :=
  ⟨"web", .stopped, .connecting, none⟩

/-- A status-change queue filled to capacity. -/
def fullEventQueue : List TunnelStatusChange :=
  List.replicate 100 sampleEvent

/-- Environment where graceful group delivery works but the process does
not exit within the grace window. -/
def staysAliveEnv : SignalEnv :=
  { termGroupOk := true, killGroupOk := true, exitsInGrace := false,
    termPidOk := true, killPidOk := true }

/-- Liveness oracle under which only pid 101 is alive. -/
def alive101 : Int → Bool := fun pid => pid == 101

/-- A pid file with three entries of which only the first is alive under
`alive101`. -/
def threeEntryFile : List (String × PidInfo) :=
  [("a", ⟨101, "sa", "a"⟩), ("b", ⟨102, "sb", "b"⟩), ("c", ⟨103, "sc", "c"⟩)]

/-- The web tunnel carrying the "prod" profile tag. -/
def prodTunnel : Tunnel :=
  { webSpec with ID := "t1", Name := "a", Profile := "prod" }

/-! ## Association-map lemmas -/

theorem lookupA_append {α : Type} (k : String) (l1 l2 : List (String × α)) :
    lookupA k (l1 ++ l2) =
      match lookupA k l1 with
      | some v => some v
      | none => lookupA k l2 := by
  induction l1 with
  | nil => simp [lookupA]
  | cons p t ih =>
    by_cases h : p.1 = k
    · simp [lookupA, h]
    · simp [lookupA, h, ih]

theorem lookupA_erase_self {α : Type} (k : String) (l : List (String × α)) :
    lookupA k (eraseA k l) = none := by
  induction l with
  | nil => simp [lookupA, eraseA]
  | cons p t ih =>
    by_cases h : p.1 = k
    · simp [eraseA, h, ih]
    · simp [eraseA, lookupA, h, ih]

theorem lookupA_erase_ne {α : Type} (k j : String) (l : List (String × α))
    (h : k ≠ j) : lookupA k (eraseA j l) = lookupA k l := by
  have hjk : j ≠ k := fun hc => h hc.symm
  induction l with
  | nil => simp [lookupA, eraseA]
  | cons p t ih =>
    by_cases hp : p.1 = j
    · have hk : p.1 ≠ k := by rw [hp]; exact hjk
      simp [eraseA, lookupA, hp, hk, ih, hjk]
    · by_cases hk : p.1 = k
      · simp [eraseA, lookupA, hp, hk, ih, h, hjk]
      · simp [eraseA, lookupA, hp, hk, ih]

theorem lookupA_insert_self {α : Type} (k : String) (v : α)
    (l : List (String × α)) : lookupA k (insertA k v l) = some v := by
  rw [insertA, lookupA_append, lookupA_erase_self]
  simp [lookupA]

theorem lookupA_insert_ne {α : Type} (k j : String) (v : α)
    (l : List (String × α)) (h : k ≠ j) :
    lookupA k (insertA j v l) = lookupA k l := by
  rw [insertA, lookupA_append, lookupA_erase_ne k j l h]
  cases hv : lookupA k l with
  | some v2 => rfl
  | none =>
    have : j ≠ k := fun hc => h hc.symm
    simp [lookupA, this]

theorem countKey_erase {α : Type} (k : String) (l : List (String × α)) :
    countKey k (eraseA k l) = 0 := by
  induction l with
  | nil => rfl
  | cons p t ih =>
    by_cases h : p.1 = k
    · simp [eraseA, h, ih]
    · simp [eraseA, countKey, h, ih]

theorem countKey_append {α : Type} (k : String) (l1 l2 : List (String × α)) :
    countKey k (l1 ++ l2) = countKey k l1 + countKey k l2 := by
  induction l1 with
  | nil => simp [countKey]
  | cons p t ih =>
    simp [countKey, ih]
    omega

theorem countKey_insert {α : Type} (k : String) (v : α)
    (l : List (String × α)) : countKey k (insertA k v l) = 1 := by
  simp [insertA, countKey_append, countKey_erase, countKey]

theorem lookupA_filter_none {α : Type} (k : String)
    (p : String × α → Bool) (l : List (String × α))
    (h : lookupA k l = none) : lookupA k (l.filter p) = none := by
  induction l with
  | nil => simp [lookupA]
  | cons e t ih =>
    by_cases he : e.1 = k
    · simp [lookupA, he] at h
    · simp only [lookupA, if_neg he] at h
      by_cases hp : p e
      · simp [List.filter_cons, hp, lookupA, he, ih h]
      · simp [List.filter_cons, hp, ih h]

theorem lookupA_filter_of_mem {α : Type} (k : String)
    (p : String × α → Bool) (l : List (String × α)) (v : α)
    (hnd : (l.map Prod.fst).Nodup)
    (h : lookupA k l = some v) (hp : p (k, v) = true) :
    lookupA k (l.filter p) = some v := by
  induction l with
  | nil => simp [lookupA] at h
  | cons e t ih =>
    have hnd2 : (t.map Prod.fst).Nodup := (List.nodup_cons.mp hnd).2
    by_cases he : e.1 = k
    · have hev : e.2 = v := by simpa [lookupA, he] using h
      have hekv : e = (k, v) := by
        cases e with
        | mk a b =>
          simp at he hev
          rw [he, hev]
      have hpe : p e = true := by rw [hekv]; exact hp
      simp [List.filter_cons, hpe, lookupA, he, hev]
    · simp only [lookupA, if_neg he] at h
      by_cases hpe : p e
      · simp [List.filter_cons, hpe, lookupA, he, ih hnd2 h]
      · simp [List.filter_cons, hpe, ih hnd2 h]

/-! ## Claim theorems -/

/-- C3: the spawn argument list is built deterministically in the order
forwarding flag with its encoded bind/destination argument, fixed
stability options, the extra arguments of the spec verbatim, and the SSH
destination host last (shown for the non-verbose process manager); for
the web scenario spec the invocation holds the local-forward argument
"0.0.0.0:8080:localhost:80", the stability options, and ends with
destination "example.com". -/
theorem claim_C3 (t : Tunnel) :
    buildSSHArgs false t =
      (match t.Typ with
       | .LocalForward =>
         ["-L", t.LocalHost ++ ":" ++ goIntRepr t.LocalPort ++ ":" ++
                t.RemoteHost ++ ":" ++ goIntRepr t.RemotePort]
       | .RemoteForward =>
         ["-R", goIntRepr t.RemotePort ++ ":" ++
                (if t.LocalHost = "" ∨ t.LocalHost = "0.0.0.0"
                 then "127.0.0.1" else t.LocalHost) ++ ":" ++
                goIntRepr t.LocalPort]
       | .DynamicForward =>
         ["-D", t.LocalHost ++ ":" ++ goIntRepr t.LocalPort]) ++
      sshStabilityOptions ++ t.ExtraArgs ++ [t.SSHHost] ∧
    buildSSHArgs false webSpec =
      ["-L", "0.0.0.0:8080:localhost:80"] ++ sshStabilityOptions ++
      ["example.com"] ∧
    (buildSSHArgs false webSpec).getLast? = some "example.com" := by
  refine ⟨?_, by decide, by decide⟩
  cases hE : t.ExtraArgs with
  | nil => cases hT : t.Typ <;> simp [buildSSHArgs, hE, hT]
  | cons a rest => cases hT : t.Typ <;> simp [buildSSHArgs, hE, hT]

/-- C7: the status-change queue has fixed capacity 100; an emit on a full
queue drops the event and leaves the queue unchanged, an emit on a
non-full queue appends the event, and the capacity bound is preserved. -/
theorem claim_C7 (q : List TunnelStatusChange) (ev : TunnelStatusChange) :
    statusChangeCapacity = 100 ∧
    (q.length ≤ statusChangeCapacity →
      (notifyStatusChange q ev).length ≤ statusChangeCapacity) ∧
    (¬ q.length < statusChangeCapacity → notifyStatusChange q ev = q) ∧
    (q.length < statusChangeCapacity →
      notifyStatusChange q ev = q ++ [ev]) := by
  refine ⟨rfl, ?_, ?_, ?_⟩
  · intro h
    unfold notifyStatusChange
    split
    next hlt => simp; omega
    next => exact h
  · intro h
    unfold notifyStatusChange
    split
    next hlt => exact absurd hlt h
    next => rfl
  · intro h
    unfold notifyStatusChange
    split
    next => rfl
    next hge => exact absurd h hge

/-- Witness for C7 at concrete queues: an emit on the empty queue appends,
an emit on a queue of 100 events drops. -/
theorem claim_C7_witness :
    (notifyStatusChange [] sampleEvent).length ≤ statusChangeCapacity ∧
    notifyStatusChange fullEventQueue sampleEvent = fullEventQueue ∧
    notifyStatusChange [] sampleEvent = [] ++ [sampleEvent] :=
  ⟨(claim_C7 [] sampleEvent).2.1 (by simp [statusChangeCapacity]),
   (claim_C7 fullEventQueue sampleEvent).2.2.1
     (by simp [fullEventQueue, statusChangeCapacity]),
   (claim_C7 [] sampleEvent).2.2.2 (by simp [statusChangeCapacity])⟩

/-- C9: Validate is not read-only on its argument: for a LocalForward
tunnel with non-empty name and SSH host, in-range ports and an empty
destination host, validation succeeds and sets RemoteHost to 127.0.0.1,
leaving every other field unchanged. -/
theorem claim_C9 (t : Tunnel) (hty : t.Typ = .LocalForward)
    (hn : t.Name ≠ "") (hh : t.SSHHost ≠ "")
    (hlp1 : 0 < t.LocalPort) (hlp2 : t.LocalPort ≤ 65535)
    (hrp1 : 0 < t.RemotePort) (hrp2 : t.RemotePort ≤ 65535)
    (hrh : t.RemoteHost = "") :
    validate t = ({ t with RemoteHost := "127.0.0.1" }, none) := by
  have h1 : ¬ (t.LocalPort ≤ 0 ∨ 65535 < t.LocalPort) := by omega
  have h2 : ¬ (t.RemotePort ≤ 0 ∨ 65535 < t.RemotePort) := by omega
  simp [validate, hty, hn, hh, hrh, h1, h2]

/-- Witness for C9: validating the web spec with a cleared destination
host succeeds and fills in 127.0.0.1. -/
theorem claim_C9_witness :
    validate { webSpec with RemoteHost := "" } =
      ({ { webSpec with RemoteHost := "" } with
          RemoteHost := "127.0.0.1" }, none) :=
  claim_C9 { webSpec with RemoteHost := "" } (by decide) (by decide)
    (by decide) (by decide) (by decide) (by decide) (by decide) (by decide)

/-- C10 (code evaluation at the failing input): filtering the "prod"
profile does return exactly the tunnel tagged "prod", but the returned
element is the clone with its Profile field reset to the empty string, so
it is not a deep copy of the stored tunnel. -/
theorem claim_C10_eval :
    getTunnelsByProfile [("t1", prodTunnel)] "prod" =
      [{ prodTunnel with Profile := "" }] ∧
    prodTunnel.Profile = "prod" ∧
    cloneTunnel prodTunnel ≠ prodTunnel := by
  refine ⟨by decide, by decide, by decide⟩

/-- C5 (counterexample): for a persisted ledger with N = 3 entries of
which only M = 1 process is alive, load returns 1 entry, not the N − M = 2
entries the claim asserts. -/
theorem claim_C5_counterexample :
    (loadPids alive101 (some threeEntryFile)).length = 1 ∧
    ¬ (loadPids alive101 (some threeEntryFile)).length = 3 - 1 := by
  refine ⟨by decide, by decide⟩

/-- C5 (amended): load returns exactly the entries whose process is
alive, so with M of N alive the result has exactly M entries (not N − M);
save after load is a no-op modulo formatting when all processes of a
non-empty ledger are alive, and an absent file loads as the empty map. -/
theorem claim_C5_amended (alive : Int → Bool)
    (l : List (String × PidInfo)) :
    loadPids alive (some l) = l.filter (fun e => alive e.2.PID) ∧
    (loadPids alive (some l)).length =
      l.countP (fun e => alive e.2.PID) ∧
    ((∀ e ∈ l, alive e.2.PID) → l ≠ [] →
      savePids (loadPids alive (some l)) = some l) ∧
    loadPids alive none = [] := by
  refine ⟨rfl, ?_, ?_, rfl⟩
  · simp [loadPids, List.countP_eq_length_filter]
  · intro hall hne
    have hf : l.filter (fun e => alive e.2.PID) = l :=
      List.filter_eq_self.mpr (fun e he => hall e he)
    simp [loadPids, savePids, hf, hne]

/-- Witness for C5 (amended) on a concrete two-entry ledger whose
processes are both alive. -/
theorem claim_C5_amended_witness :
    ((∀ e ∈ [("a", (⟨101, "sa", "a"⟩ : PidInfo)),
             ("b", (⟨101, "sb", "b"⟩ : PidInfo))], alive101 e.2.PID) →
      [("a", (⟨101, "sa", "a"⟩ : PidInfo)),
       ("b", (⟨101, "sb", "b"⟩ : PidInfo))] ≠ [] →
      savePids (loadPids alive101 (some
        [("a", (⟨101, "sa", "a"⟩ : PidInfo)),
         ("b", (⟨101, "sb", "b"⟩ : PidInfo))])) =
        some [("a", (⟨101, "sa", "a"⟩ : PidInfo)),
              ("b", (⟨101, "sb", "b"⟩ : PidInfo))]) ∧
    savePids (loadPids alive101 (some
      [("a", (⟨101, "sa", "a"⟩ : PidInfo)),
       ("b", (⟨101, "sb", "b"⟩ : PidInfo))])) =
      some [("a", (⟨101, "sa", "a"⟩ : PidInfo)),
            ("b", (⟨101, "sb", "b"⟩ : PidInfo))] :=
  have h := (claim_C5_amended alive101
    [("a", ⟨101, "sa", "a"⟩), ("b", ⟨101, "sb", "b"⟩)]).2.2.1
  ⟨h, h (by decide) (by decide)⟩

/-- C2 (counterexample): a tracked tunnel whose process survives the
grace window receives, after the graceful group signal and the 5 second
wait, a forceful kill aimed at the single process, not at the process
group; no group-level kill appears in the trace, contradicting the
claimed escalation target. -/
theorem claim_C2_counterexample :
    disconnect staysAliveEnv [("web", 42)] "web" 42 =
      ([Sig.termGroup 42, Sig.waitGrace 5, Sig.killProc 42],
       [], Except.ok ()) ∧
    ¬ Sig.killGroup 42 ∈
      (disconnect staysAliveEnv [("web", 42)] "web" 42).1 := by
  refine ⟨rfl, by decide⟩

/-- C2 (amended): for a tracked tunnel whose graceful group signal is
delivered, terminate sends SIGTERM to the process group, waits up to the
fixed 5-second grace window, and only if the process is still alive after
the window sends a forceful kill signal to the process itself (not to the
group); afterwards the handle is removed from the supervisor table. -/
theorem claim_C2_amended (env : SignalEnv)
    (processes : List (String × Int)) (id : String) (pid hpid : Int)
    (h1 : lookupA id processes = some hpid)
    (h2 : env.termGroupOk = true) :
    disconnect env processes id pid =
      ((if env.exitsInGrace then
          [Sig.termGroup hpid, Sig.waitGrace graceWindowSeconds]
        else
          [Sig.termGroup hpid, Sig.waitGrace graceWindowSeconds,
           Sig.killProc hpid]),
       eraseA id processes, Except.ok ()) ∧
    lookupA id (disconnect env processes id pid).2.1 = none := by
  unfold disconnect
  rw [h1]
  simp only [h2, if_true]
  cases hg : env.exitsInGrace <;>
    simp [hg, lookupA_erase_self]

/-- Witness for C2 (amended): a concrete tracked tunnel that exits within
the grace window is torn down with only the graceful group signal. -/
theorem claim_C2_amended_witness :
    disconnect { staysAliveEnv with exitsInGrace := true }
        [("web", 42)] "web" 42 =
      ((if ({ staysAliveEnv with exitsInGrace := true } : SignalEnv).exitsInGrace
        then [Sig.termGroup 42, Sig.waitGrace graceWindowSeconds]
        else [Sig.termGroup 42, Sig.waitGrace graceWindowSeconds,
              Sig.killProc 42]),
       eraseA "web" [("web", 42)], Except.ok ()) ∧
    lookupA "web"
      (disconnect { staysAliveEnv with exitsInGrace := true }
        [("web", 42)] "web" 42).2.1 = none :=
  claim_C2_amended { staysAliveEnv with exitsInGrace := true }
    [("web", 42)] "web" 42 42 (by decide) (by decide)

theorem eraseA_append {α : Type} (k : String) (l1 l2 : List (String × α)) :
    eraseA k (l1 ++ l2) = eraseA k l1 ++ eraseA k l2 := by
  induction l1 with
  | nil => simp [eraseA]
  | cons p t ih =>
    by_cases h : p.1 = k
    · simp [eraseA, h, ih]
    · simp [eraseA, h, ih]

theorem eraseA_idem {α : Type} (k : String) (l : List (String × α)) :
    eraseA k (eraseA k l) = eraseA k l := by
  induction l with
  | nil => rfl
  | cons p t ih =>
    by_cases h : p.1 = k
    · simp [eraseA, h, ih]
    · simp [eraseA, h, ih]

theorem eraseA_insert_self {α : Type} (k : String) (v : α)
    (l : List (String × α)) :
    eraseA k (insertA k v l) = eraseA k l := by
  simp [insertA, eraseA_append, eraseA_idem, eraseA]

/-- Rollback of an insert at a previously absent key restores every
lookup. -/
theorem lookup_rollback_insert_absent {α : Type} (k0 : String) (v : α)
    (l : List (String × α)) (h : lookupA k0 l = none) (k : String) :
    lookupA k (eraseA k0 (insertA k0 v l)) = lookupA k l := by
  rw [eraseA_insert_self]
  by_cases hk : k = k0
  · rw [hk, lookupA_erase_self, h]
  · exact lookupA_erase_ne k k0 l hk

/-- Rollback of an overwrite restores every lookup. -/
theorem lookup_rollback_overwrite {α : Type} (k0 : String) (v old : α)
    (l : List (String × α)) (h : lookupA k0 l = some old) (k : String) :
    lookupA k (insertA k0 old (insertA k0 v l)) = lookupA k l := by
  by_cases hk : k = k0
  · rw [hk, lookupA_insert_self, h]
  · rw [lookupA_insert_ne k k0 old _ hk, lookupA_insert_ne k k0 v l hk]

/-- Rollback of an erase restores every lookup. -/
theorem lookup_rollback_erase {α : Type} (k0 : String) (old : α)
    (l : List (String × α)) (h : lookupA k0 l = some old) (k : String) :
    lookupA k (insertA k0 old (eraseA k0 l)) = lookupA k l := by
  by_cases hk : k = k0
  · rw [hk, lookupA_insert_self, h]
  · rw [lookupA_insert_ne k k0 old _ hk, lookupA_erase_ne k k0 l hk]

/-- C4: when the configuration rewrite fails, add, update and delete each
roll the in-memory tunnel map back to exactly its prior state (every
lookup unchanged) and return the error; when a mutation succeeds, the
attempted rewrite is exactly the full configuration of the resulting
tunnel map. -/
theorem claim_C4 (s : ManagerState) (t : Tunnel) (id : String) :
    ((∀ k, lookupA k (addTunnel false s t).1.tunnels =
        lookupA k s.tunnels) ∧
     (∃ msg, (addTunnel false s t).2.2 = .error msg)) ∧
    ((∀ k, lookupA k (updateTunnel false s t).1.tunnels =
        lookupA k s.tunnels) ∧
     (∃ msg, (updateTunnel false s t).2.2 = .error msg)) ∧
    ((∀ k, lookupA k (deleteTunnel false s id).1.tunnels =
        lookupA k s.tunnels) ∧
     (∃ msg, (deleteTunnel false s id).2.2 = .error msg)) ∧
    (∀ saveOk, (addTunnel saveOk s t).2.2 = .ok () →
      (addTunnel saveOk s t).2.1 =
        some (saveTunnelsPayload (addTunnel saveOk s t).1.tunnels)) ∧
    (∀ saveOk, (updateTunnel saveOk s t).2.2 = .ok () →
      (updateTunnel saveOk s t).2.1 =
        some (saveTunnelsPayload (updateTunnel saveOk s t).1.tunnels)) ∧
    (∀ saveOk, (deleteTunnel saveOk s id).2.2 = .ok () →
      (deleteTunnel saveOk s id).2.1 =
        some (saveTunnelsPayload (deleteTunnel saveOk s id).1.tunnels)) := by
  refine ⟨⟨?_, ?_⟩, ⟨?_, ?_⟩, ⟨?_, ?_⟩, ?_, ?_, ?_⟩
  · intro k
    cases hv : (validate t).2 with
    | some e => simp [addTunnel, hv]
    | none =>
      cases hl : lookupA (validate t).1.ID s.tunnels with
      | some u => simp [addTunnel, hv, hl]
      | none =>
        simp only [addTunnel, hv, hl]
        exact lookup_rollback_insert_absent (validate t).1.ID (validate t).1
          s.tunnels hl k
  · cases hv : (validate t).2 with
    | some e => simp only [addTunnel, hv]; exact ⟨_, rfl⟩
    | none =>
      cases hl : lookupA (validate t).1.ID s.tunnels with
      | some u => simp only [addTunnel, hv, hl]; exact ⟨_, rfl⟩
      | none => simp only [addTunnel, hv, hl]; exact ⟨_, rfl⟩
  · intro k
    cases hv : (validate t).2 with
    | some e => simp [updateTunnel, hv]
    | none =>
      cases hl : lookupA (validate t).1.ID s.tunnels with
      | none => simp [updateTunnel, hv, hl]
      | some existing =>
        by_cases hr : existing.Status = .running
        · simp [updateTunnel, hv, hl, hr]
        · simp only [updateTunnel, hv, hl, if_neg hr]
          exact lookup_rollback_overwrite (validate t).1.ID (validate t).1
            existing s.tunnels hl k
  · cases hv : (validate t).2 with
    | some e => simp only [updateTunnel, hv]; exact ⟨_, rfl⟩
    | none =>
      cases hl : lookupA (validate t).1.ID s.tunnels with
      | none => simp only [updateTunnel, hv, hl]; exact ⟨_, rfl⟩
      | some existing =>
        by_cases hr : existing.Status = .running
        · simp only [updateTunnel, hv, hl, if_pos hr]; exact ⟨_, rfl⟩
        · simp only [updateTunnel, hv, hl, if_neg hr]; exact ⟨_, rfl⟩
  · intro k
    cases hl : lookupA id s.tunnels with
    | none => simp [deleteTunnel, hl]
    | some t0 =>
      by_cases hr : t0.Status = .running
      · simp [deleteTunnel, hl, hr]
      · simp only [deleteTunnel, hl, if_neg hr]
        exact lookup_rollback_erase id t0 s.tunnels hl k
  · cases hl : lookupA id s.tunnels with
    | none => simp only [deleteTunnel, hl]; exact ⟨_, rfl⟩
    | some t0 =>
      by_cases hr : t0.Status = .running
      · simp only [deleteTunnel, hl, if_pos hr]; exact ⟨_, rfl⟩
      · simp only [deleteTunnel, hl, if_neg hr]; exact ⟨_, rfl⟩
  · intro saveOk h
    cases hv : (validate t).2 with
    | some e => simp [addTunnel, hv] at h
    | none =>
      cases hl : lookupA (validate t).1.ID s.tunnels with
      | some u => simp [addTunnel, hv, hl] at h
      | none =>
        cases saveOk with
        | false => simp [addTunnel, hv, hl] at h
        | true => simp [addTunnel, hv, hl]
  · intro saveOk h
    cases hv : (validate t).2 with
    | some e => simp [updateTunnel, hv] at h
    | none =>
      cases hl : lookupA (validate t).1.ID s.tunnels with
      | none => simp [updateTunnel, hv, hl] at h
      | some existing =>
        by_cases hr : existing.Status = .running
        · simp [updateTunnel, hv, hl, hr] at h
        · cases saveOk with
          | false => simp [updateTunnel, hv, hl, if_neg hr] at h
          | true => simp [updateTunnel, hv, hl, if_neg hr]
  · intro saveOk h
    cases hl : lookupA id s.tunnels with
    | none => simp [deleteTunnel, hl] at h
    | some t0 =>
      by_cases hr : t0.Status = .running
      · simp [deleteTunnel, hl, hr] at h
      · cases saveOk with
        | false => simp [deleteTunnel, hl, if_neg hr] at h
        | true => simp [deleteTunnel, hl, if_neg hr]

/-- Witness for C4: adding a second tunnel to the concrete one-tunnel
manager with a failing rewrite restores the lookup of the new id, and a
successful add rewrites the full resulting configuration. -/
theorem claim_C4_witness :
    lookupA "w2" (addTunnel false stoppedState
        { webSpec with ID := "w2", Name := "b" }).1.tunnels =
      lookupA "w2" stoppedState.tunnels ∧
    (addTunnel true stoppedState
        { webSpec with ID := "w2", Name := "b" }).2.1 =
      some (saveTunnelsPayload (addTunnel true stoppedState
        { webSpec with ID := "w2", Name := "b" }).1.tunnels) :=
  ⟨(claim_C4 stoppedState { webSpec with ID := "w2", Name := "b" }
      "w2").1.1 "w2",
   (claim_C4 stoppedState { webSpec with ID := "w2", Name := "b" }
      "w2").2.2.2.1 true rfl⟩

/-- A start against a tunnel already in the Running status returns the
already-running error without changing any state. -/
theorem startTunnel_running (alive : Int → Bool) (s : ManagerState)
    (id : String) (t : Tunnel) (sp : Except String Int) (now : Nat)
    (ns : String) (h1 : lookupA id s.tunnels = some t)
    (h2 : t.Status = .running) :
    startTunnel alive s id sp now ns =
      (s, .error "tunnel is already running") := by
  simp [startTunnel, h1, h2]

/-- Full reduction of a start whose spawn fails. -/
theorem startTunnel_spawn_error_eq (alive : Int → Bool) (s : ManagerState)
    (id : String) (t : Tunnel) (e : String) (now : Nat) (ns : String)
    (h1 : lookupA id s.tunnels = some t) (h2 : t.Status ≠ .running)
    (hv : (validate { t with Status := .connecting }).2 = none) :
    startTunnel alive s id (.error e) now ns =
      ({ tunnels :=
           insertA id
             { (validate { t with Status := .connecting }).1 with
                 Status := .errorStatus, LastError := some e }
             (insertA id (validate { t with Status := .connecting }).1
               (insertA id { t with Status := .connecting } s.tunnels))
         processes := s.processes
         ledger := s.ledger
         events :=
           notifyStatusChange
             (notifyStatusChange s.events
               ⟨id, t.Status, .connecting, none⟩)
             ⟨id, .connecting, .errorStatus, some e⟩ },
       .error ("failed to start tunnel: " ++ e)) := by
  simp only [startTunnel, h1, if_neg h2, hv]

/-- Full reduction of a successful start. -/
theorem startTunnel_success_eq (alive : Int → Bool) (s : ManagerState)
    (id : String) (t : Tunnel) (pid : Int) (now : Nat) (ns : String)
    (h1 : lookupA id s.tunnels = some t) (h2 : t.Status ≠ .running)
    (hv : (validate { t with Status := .connecting }).2 = none) :
    startTunnel alive s id (.ok pid) now ns =
      ({ tunnels :=
           insertA id
             { (validate { t with Status := .connecting }).1 with
                 PID := pid, StartedAt := some now, Status := .running,
                 LastError := none }
             (insertA id (validate { t with Status := .connecting }).1
               (insertA id { t with Status := .connecting } s.tunnels))
         processes := insertA id pid s.processes
         ledger := addPid alive s.ledger id pid ns
         events :=
           notifyStatusChange
             (notifyStatusChange s.events
               ⟨id, t.Status, .connecting, none⟩)
             ⟨id, .connecting, .running, none⟩ },
       .ok ()) := by
  simp only [startTunnel, h1, if_neg h2, hv]

/-- C8: when the spawn attempt fails, start returns the error, leaves the
tunnel in the Error status with the failure cause in its last-error
field, and does not touch the PID ledger at all. -/
theorem claim_C8 (alive : Int → Bool) (s : ManagerState) (id : String)
    (t : Tunnel) (e : String) (now : Nat) (ns : String)
    (h1 : lookupA id s.tunnels = some t) (h2 : t.Status ≠ .running)
    (hv : (validate { t with Status := .connecting }).2 = none) :
    (startTunnel alive s id (.error e) now ns).2 =
      .error ("failed to start tunnel: " ++ e) ∧
    lookupA id (startTunnel alive s id (.error e) now ns).1.tunnels =
      some { (validate { t with Status := .connecting }).1 with
               Status := .errorStatus, LastError := some e } ∧
    (startTunnel alive s id (.error e) now ns).1.ledger = s.ledger ∧
    (startTunnel alive s id (.error e) now ns).1.processes =
      s.processes := by
  rw [startTunnel_spawn_error_eq alive s id t e now ns h1 h2 hv]
  exact ⟨rfl, lookupA_insert_self id _ _, rfl, rfl⟩

/-- Witness for C8: a failing spawn on the concrete stopped web tunnel
returns the error, sets Error status with the cause, and leaves the
(absent) ledger absent. -/
theorem claim_C8_witness :
    (startTunnel alive101 stoppedState "web" (.error "boom") 3 "ts").2 =
      .error ("failed to start tunnel: " ++ "boom") ∧
    lookupA "web"
      (startTunnel alive101 stoppedState "web"
        (.error "boom") 3 "ts").1.tunnels =
      some { (validate { webSpec with Status := .connecting }).1 with
               Status := .errorStatus, LastError := some "boom" } ∧
    (startTunnel alive101 stoppedState "web"
      (.error "boom") 3 "ts").1.ledger = stoppedState.ledger ∧
    (startTunnel alive101 stoppedState "web"
      (.error "boom") 3 "ts").1.processes = stoppedState.processes :=
  claim_C8 alive101 stoppedState "web" webSpec "boom" 3 "ts"
    (by decide) (by decide) (by decide)

/-- C1 (counterexample): a start request issued while the tunnel is in
the Connecting status is not rejected — the concrete start below succeeds
even though the web tunnel is Connecting, refuting the claim that a start
against a Connecting tunnel returns an already-active error. -/
theorem claim_C1_counterexample :
    (lookupA "web" connectingState.tunnels).map Tunnel.Status =
      some .connecting ∧
    (startTunnel (fun _ => true) connectingState "web"
      (.ok 42) 0 "ts").2 = .ok () := by
  exact ⟨rfl, rfl⟩

/-- C1 (amended): a start request issued while the tunnel is Running is
rejected with the already-running error and changes nothing, while a
start during the transient Connecting phase is not rejected; a successful
start followed immediately by a second start on the same identifier
returns the already-running error, leaves the state of the first start
untouched, and the process table holds exactly one entry for the
identifier. -/
theorem claim_C1_amended (alive : Int → Bool) (s : ManagerState)
    (id : String) (t : Tunnel) (sp sp2 : Except String Int) (pid : Int)
    (now now2 : Nat) (ns ns2 : String)
    (h1 : lookupA id s.tunnels = some t) :
    (t.Status = .running →
      startTunnel alive s id sp now ns =
        (s, .error "tunnel is already running")) ∧
    (t.Status ≠ .running →
      (validate { t with Status := .connecting }).2 = none →
      (startTunnel alive s id (.ok pid) now ns).2 = .ok () ∧
      countKey id
        (startTunnel alive s id (.ok pid) now ns).1.processes = 1 ∧
      startTunnel alive
        (startTunnel alive s id (.ok pid) now ns).1 id sp2 now2 ns2 =
        ((startTunnel alive s id (.ok pid) now ns).1,
         .error "tunnel is already running")) := by
  constructor
  · intro h2
    exact startTunnel_running alive s id t sp now ns h1 h2
  · intro h2 hv
    rw [startTunnel_success_eq alive s id t pid now ns h1 h2 hv]
    refine ⟨rfl, countKey_insert id pid s.processes, ?_⟩
    exact startTunnel_running alive _ id _ sp2 now2 ns2
      (lookupA_insert_self id _ _) rfl

/-- Witness for C1 (amended): starting the stopped web tunnel succeeds,
registers exactly one process entry, and an immediate second start is
rejected with the already-running error. -/
theorem claim_C1_amended_witness :
    (startTunnel alive101 stoppedState "web" (.ok 42) 0 "ts").2 =
      .ok () ∧
    countKey "web"
      (startTunnel alive101 stoppedState "web"
        (.ok 42) 0 "ts").1.processes = 1 ∧
    startTunnel alive101
      (startTunnel alive101 stoppedState "web" (.ok 42) 0 "ts").1
      "web" (.ok 43) 1 "ts2" =
      ((startTunnel alive101 stoppedState "web" (.ok 42) 0 "ts").1,
       .error "tunnel is already running") :=
  (claim_C1_amended alive101 stoppedState "web" webSpec
      (.ok 42) (.ok 43) 42 0 1 "ts" "ts2" (by decide)).2
    (by decide) (by decide)

theorem lookupA_mem {α : Type} (k : String) (l : List (String × α))
    (v : α) (h : lookupA k l = some v) : (k, v) ∈ l := by
  induction l with
  | nil => simp [lookupA] at h
  | cons p t ih =>
    by_cases hp : p.1 = k
    · have hv : p.2 = v := by simpa [lookupA, hp] using h
      have : p = (k, v) := by
        cases p with
        | mk a b =>
          simp at hp hv
          rw [hp, hv]
      rw [this]
      exact List.mem_cons_self _ _
    · simp only [lookupA, if_neg hp] at h
      exact List.mem_cons_of_mem _ (ih h)

theorem savePids_lookup (k : String) (l : List (String × PidInfo)) :
    lookupFile k (savePids l) = lookupA k l := by
  by_cases h : l = []
  · subst h
    simp [savePids, lookupFile, lookupA]
  · simp [savePids, lookupFile, h]

theorem lookupA_loadPids_none (alive : Int → Bool) (file : PidFile)
    (j : String) (h : lookupFile j file = none) :
    lookupA j (loadPids alive file) = none := by
  cases file with
  | none => rfl
  | some l => exact lookupA_filter_none j _ l h

theorem lookupFile_removePid_self (alive : Int → Bool) (file : PidFile)
    (k : String) : lookupFile k (removePid alive file k) = none := by
  unfold removePid
  rw [savePids_lookup]
  exact lookupA_erase_self k _

theorem lookupFile_removePid_none (alive : Int → Bool) (file : PidFile)
    (k j : String) (h : lookupFile j file = none) :
    lookupFile j (removePid alive file k) = none := by
  unfold removePid
  rw [savePids_lookup]
  by_cases hj : j = k
  · rw [hj]; exact lookupA_erase_self k _
  · rw [lookupA_erase_ne j k _ hj]
    exact lookupA_loadPids_none alive file j h

theorem restoreStep_none (env : RestoreEnv)
    (acc : List (String × Tunnel) × PidFile) (e : String × PidInfo)
    (h : lookupA e.1 acc.1 = none) :
    restoreStep env acc e = (acc.1, removePid env.alive acc.2 e.1) := by
  unfold restoreStep
  rw [h]

theorem restoreStep_some_alive (env : RestoreEnv)
    (acc : List (String × Tunnel) × PidFile) (e : String × PidInfo)
    (t : Tunnel) (h : lookupA e.1 acc.1 = some t)
    (ha : env.alive e.2.PID = true) :
    restoreStep env acc e =
      (insertA e.1
        { t with Status := .running, PID := e.2.PID,
                 StartedAt := some (match env.parseTime e.2.Started with
                                    | some ts => ts
                                    | none => env.now) } acc.1,
       acc.2) := by
  unfold restoreStep
  rw [h]
  simp only [ha, if_true]

theorem restore_foldl_file_none (env : RestoreEnv) (tid : String)
    (l : List (String × PidInfo)) :
    ∀ acc : List (String × Tunnel) × PidFile,
      lookupFile tid acc.2 = none →
      lookupFile tid (l.foldl (restoreStep env) acc).2 = none := by
  induction l with
  | nil => intro acc h; exact h
  | cons e rest ih =>
    intro acc h
    rw [List.foldl_cons]
    apply ih
    unfold restoreStep
    cases hs : lookupA e.1 acc.1 with
    | none => exact lookupFile_removePid_none env.alive acc.2 e.1 tid h
    | some t =>
      by_cases halive : env.alive e.2.PID
      · simp only [halive, if_true]
        exact h
      · simp only [halive, Bool.false_eq_true, if_false]
        exact lookupFile_removePid_none env.alive acc.2 e.1 tid h

theorem restore_foldl_tunnels_none (env : RestoreEnv) (tid : String)
    (l : List (String × PidInfo)) :
    ∀ acc : List (String × Tunnel) × PidFile,
      lookupA tid acc.1 = none →
      lookupA tid (l.foldl (restoreStep env) acc).1 = none := by
  induction l with
  | nil => intro acc h; exact h
  | cons e rest ih =>
    intro acc h
    rw [List.foldl_cons]
    apply ih
    unfold restoreStep
    cases hs : lookupA e.1 acc.1 with
    | none => exact h
    | some t =>
      have hne : tid ≠ e.1 := by
        intro hc
        rw [hc] at h
        rw [h] at hs
        exact Option.noConfusion hs
      by_cases halive : env.alive e.2.PID
      · simp only [halive, if_true]
        rw [lookupA_insert_ne tid e.1 _ acc.1 hne]
        exact h
      · simp only [halive, Bool.false_eq_true, if_false]
        exact h

theorem restore_foldl_tunnels_some (env : RestoreEnv) (tid : String)
    (u : Tunnel) (l : List (String × PidInfo)) :
    ∀ acc : List (String × Tunnel) × PidFile,
      (∀ e ∈ l, e.1 ≠ tid) →
      lookupA tid acc.1 = some u →
      lookupA tid (l.foldl (restoreStep env) acc).1 = some u := by
  induction l with
  | nil => intro acc _ h; exact h
  | cons e rest ih =>
    intro acc hk h
    rw [List.foldl_cons]
    apply ih
    · intro e2 he2
      exact hk e2 (List.mem_cons_of_mem _ he2)
    · have hne : tid ≠ e.1 :=
        fun hc => hk e (List.mem_cons_self _ _) hc.symm
      unfold restoreStep
      cases hs : lookupA e.1 acc.1 with
      | none => exact h
      | some t =>
        by_cases halive : env.alive e.2.PID
        · simp only [halive, if_true]
          rw [lookupA_insert_ne tid e.1 _ acc.1 hne]
          exact h
        · simp only [halive, Bool.false_eq_true, if_false]
          exact h

/-- C6: for a ledger entry whose process is alive, startup reconciliation
deletes the entry and marks no tunnel Running when the entry has no
matching spec, and sets the matching tunnel to Running with the persisted
pid when the spec exists. -/
theorem claim_C6 (env : RestoreEnv) (tunnels : List (String × Tunnel))
    (file : List (String × PidInfo)) (tid : String) (info : PidInfo)
    (hnd : (file.map Prod.fst).Nodup)
    (hf : lookupA tid file = some info)
    (ha : env.alive info.PID = true) :
    (lookupA tid tunnels = none →
      lookupFile tid
        (restoreTunnelStates env tunnels (some file)).2 = none ∧
      lookupA tid
        (restoreTunnelStates env tunnels (some file)).1 = none) ∧
    (∀ t, lookupA tid tunnels = some t →
      ∃ st, lookupA tid
          (restoreTunnelStates env tunnels (some file)).1 =
        some { t with Status := .running, PID := info.PID,
                      StartedAt := some st }) := by
  have hpids : lookupA tid (loadPids env.alive (some file)) = some info :=
    lookupA_filter_of_mem tid _ file info hnd hf (by simpa using ha)
  have hmem : (tid, info) ∈ loadPids env.alive (some file) :=
    lookupA_mem tid _ info hpids
  obtain ⟨l1, l2, hsplit⟩ := List.append_of_mem hmem
  have hndp : ((loadPids env.alive (some file)).map Prod.fst).Nodup := by
    have hsub : (loadPids env.alive (some file)).Sublist file :=
      List.filter_sublist file
    exact List.Nodup.sublist (hsub.map Prod.fst) hnd
  rw [hsplit] at hndp
  rw [List.map_append, List.map_cons] at hndp
  rw [List.nodup_append] at hndp
  obtain ⟨hnd1, hnd2, hdisj⟩ := hndp
  have htid2 : tid ∉ l2.map Prod.fst := (List.nodup_cons.mp hnd2).1
  have htid1 : tid ∉ l1.map Prod.fst := by
    intro hc
    exact hdisj hc (List.mem_cons_self _ _)
  have hk2 : ∀ e ∈ l2, e.1 ≠ tid := by
    intro e he hc
    exact htid2 (hc ▸ List.mem_map_of_mem Prod.fst he)
  constructor
  · intro h0
    have heq : restoreTunnelStates env tunnels (some file) =
        l2.foldl (restoreStep env)
          (restoreStep env
            (l1.foldl (restoreStep env) (tunnels, some file))
            (tid, info)) := by
      rw [restoreTunnelStates, hsplit, List.foldl_append, List.foldl_cons]
    rw [heq]
    have hA1 : lookupA tid
        (l1.foldl (restoreStep env) (tunnels, some file)).1 = none :=
      restore_foldl_tunnels_none env tid l1 (tunnels, some file) h0
    have hstep : restoreStep env
        (l1.foldl (restoreStep env) (tunnels, some file)) (tid, info) =
        ((l1.foldl (restoreStep env) (tunnels, some file)).1,
         removePid env.alive
           (l1.foldl (restoreStep env) (tunnels, some file)).2 tid) :=
      restoreStep_none env _ (tid, info) hA1
    rw [hstep]
    constructor
    · exact restore_foldl_file_none env tid l2 _
        (lookupFile_removePid_self env.alive _ tid)
    · exact restore_foldl_tunnels_none env tid l2 _ hA1
  · intro t h0
    have hk1 : ∀ e ∈ l1, e.1 ≠ tid := by
      intro e he hc
      exact htid1 (hc ▸ List.mem_map_of_mem Prod.fst he)
    have heq : restoreTunnelStates env tunnels (some file) =
        l2.foldl (restoreStep env)
          (restoreStep env
            (l1.foldl (restoreStep env) (tunnels, some file))
            (tid, info)) := by
      rw [restoreTunnelStates, hsplit, List.foldl_append, List.foldl_cons]
    rw [heq]
    have hB1 : lookupA tid
        (l1.foldl (restoreStep env) (tunnels, some file)).1 = some t :=
      restore_foldl_tunnels_some env tid t l1 (tunnels, some file) hk1 h0
    refine ⟨(match env.parseTime info.Started with
             | some ts => ts
             | none => env.now), ?_⟩
    have hstep : restoreStep env
        (l1.foldl (restoreStep env) (tunnels, some file)) (tid, info) =
        (insertA tid
          { t with Status := .running, PID := info.PID,
                   StartedAt := some (match env.parseTime info.Started with
                                      | some ts => ts
                                      | none => env.now) }
          (l1.foldl (restoreStep env) (tunnels, some file)).1,
         (l1.foldl (restoreStep env) (tunnels, some file)).2) :=
      restoreStep_some_alive env _ (tid, info) t hB1 ha
    rw [hstep]
    exact restore_foldl_tunnels_some env tid _ l2 _ hk2
      (lookupA_insert_self tid _ _)

/-- Witness for C6: a concrete ledger with an orphaned alive entry and a
matched alive entry — the orphan is deleted and not marked Running, the
matched tunnel is restored to Running with the persisted pid. -/
theorem claim_C6_witness :
    (lookupFile "orphan"
        (restoreTunnelStates
          ⟨alive101, fun _ => none, 9⟩
          [("web", webSpec)]
          (some [("orphan", ⟨101, "sa", "orphan"⟩)])).2 = none ∧
      lookupA "orphan"
        (restoreTunnelStates
          ⟨alive101, fun _ => none, 9⟩
          [("web", webSpec)]
          (some [("orphan", ⟨101, "sa", "orphan"⟩)])).1 = none) ∧
    (∃ st, lookupA "web"
        (restoreTunnelStates
          ⟨alive101, fun _ => none, 9⟩
          [("web", webSpec)]
          (some [("web", ⟨101, "sb", "web"⟩)])).1 =
      some { webSpec with Status := .running, PID := 101,
                          StartedAt := some st }) :=
  ⟨(claim_C6 ⟨alive101, fun _ => none, 9⟩ [("web", webSpec)]
      [("orphan", ⟨101, "sa", "orphan"⟩)] "orphan" ⟨101, "sa", "orphan"⟩
      (by decide) (by decide) (by decide)).1 (by decide),
   (claim_C6 ⟨alive101, fun _ => none, 9⟩ [("web", webSpec)]
      [("web", ⟨101, "sb", "web"⟩)] "web" ⟨101, "sb", "web"⟩
      (by decide) (by decide) (by decide)).2 webSpec (by decide)⟩

end Tunnelman
